import Mathlib

/-!
Shallow embedding of `src/src/main.rs` of the Vdb_to_Text repository.

The program walks a source directory, filters entries whose path extension is
`vdb`, and for each one runs `parse_vdb_file`, which enumerates the grids of the
VDB container and writes one CSV artifact per grid (header row `x,y,z,span,value`
followed by one row per decoded voxel entry).

Modelling decisions:
* Filesystem paths are `List String` of components.  `Path::parent`,
  `Path::with_extension`, `Path::extension` and `Path::strip_prefix` (all from
  Rust's std, external to the repository) are modelled on this representation,
  with Rust's file-name extension semantics (the part after the last dot, where
  a single leading dot does not count as a separator).
* The VDB decoder (`vdb_rs`, an external collaborator per the spec) is an oracle
  inside `Env`: `readVdb` maps a source path to `none` (the container cannot be
  opened/parsed — in the code this makes an `unwrap` panic) or to the ordered
  list of named grids, each with its decoded voxel entries.  `available_grids`
  is the list of names; `read_grid name` is association-list lookup by name.
* Filesystem side effects are oracles too: `mkdirOk` is `create_dir_all`
  success, `canCreate` is `csv::Writer::from_path` success per output path.
* A Rust panic (`unwrap` on a failure) is modelled by the `panicked` flag:
  processing stops, nothing after the panic point runs, and the process exit
  status is failure.
* The voxel value is an `f16` rendered by the `half` crate's `Display`
  (external); the model carries that rendered decimal text in the entry.
  Positions come out of the decoder as `f32` components and are cast `as i32`
  in the code; Rust float-to-int casts saturate, modelled by `i32sat` over the
  integral values the decoder yields.
-/

namespace VdbToText

/-- Split a character list at its last dot: `some (stem, ext)` when a dot
exists, the stem being everything before the last dot. -/
def splitLastDot : List Char → Option (List Char × List Char)
  | [] => none
  | c :: cs =>
    match splitLastDot cs with
    | some (s, e) => some (c :: s, e)
    | none => if c = '.' then some ([], cs) else none

/-- Rust `Path` file-name splitting: the extension is the portion after the
last dot, except that a leading dot with no later dot yields no extension
(so `".vdb"` has no extension while `"a.vdb"` has extension `"vdb"`). -/
def rustSplitExt (name : List Char) : List Char × Option (List Char) :=
  match name with
  | [] => ([], none)
  | c :: rest =>
    if c = '.' then
      match splitLastDot rest with
      | some (s, e) => ('.' :: s, some e)
      | none => (c :: rest, none)
    else
      match splitLastDot (c :: rest) with
      | some (s, e) => (s, some e)
      | none => (c :: rest, none)

/-- `Path::extension` of a file name, as a `String`. -/
def fileExt (s : String) : Option String :=
  (rustSplitExt s.data).2.map fun e => ⟨e⟩

/-- `Path::file_stem` of a file name, as a `String`. -/
def fileStem (s : String) : String :=
  ⟨(rustSplitExt s.data).1⟩

/-- Rust `Path::with_extension` restricted to the file-name component:
replace the extension (or append one when there is none). -/
def withExtStr (s e : String) : String :=
  if e.data.isEmpty then ⟨(rustSplitExt s.data).1⟩
  else ⟨(rustSplitExt s.data).1 ++ '.' :: e.data⟩

/-- `Path::with_extension` on a component-list path: rewrite the last
component; a path with no components is returned unchanged. -/
def withExtPath (p : List String) (e : String) : List String :=
  match p.getLast? with
  | none => p
  | some f => p.dropLast ++ [withExtStr f e]

/-- `Path::parent` on a component-list path: `none` for the empty path,
otherwise the path without its last component. -/
def parentPath (p : List String) : Option (List String) :=
  match p with
  | [] => none
  | _ => some p.dropLast

/-- Is `pre` a leading run of components of `p`? (Rust `Path::starts_with`.) -/
def underRoot : List String → List String → Bool
  | [], _ => true
  | _ :: _, [] => false
  | a :: as, b :: bs => a = b && underRoot as bs

/-- Rust `Path::strip_prefix`: the remaining components when `pre` leads `p`,
`none` (an error in the code) otherwise. -/
def stripRoot (pre p : List String) : Option (List String) :=
  if underRoot pre p then some (p.drop pre.length) else none

/-- One decoded voxel entry as yielded by `grid.iter()`: a position, the
decoder-supplied span scale, and the `f16` voxel value carried as the decimal
text the `half` crate's `Display` renders for it. -/
structure VoxelEntry where
  x : Int
  y : Int
  z : Int
  scale : Int
  value : String
  deriving Repr, DecidableEq

/-- Rust `as i32` on a float holding an integral value: saturating cast. -/
def i32sat (n : Int) : Int :=
  max (-(2 ^ 31)) (min (2 ^ 31 - 1) n)

/-- The fixed CSV header record `["x","y","z","span","value"]`
(main.rs line 76). -/
def headerRow : List String := ["x", "y", "z", "span", "value"]

/-- The data record written for one voxel entry (main.rs lines 81-89):
the three position components cast `as i32` and rendered as decimal text,
the scale cast `as i32` and rendered as decimal text, and the voxel value's
rendered text. -/
def rowOf (e : VoxelEntry) : List String :=
  [toString (i32sat e.x), toString (i32sat e.y), toString (i32sat e.z),
    toString (i32sat e.scale), e.value]

/-- The external world `parse_vdb_file` interacts with: directory creation,
output-file creation, and the VDB decoder. -/
structure Env where
  mkdirOk : List String → Bool
  canCreate : List String → Bool
  readVdb : List String → Option (List (String × List VoxelEntry))

/-- Outcome of one `parse_vdb_file` call: the artifacts written (path and
full record list), the messages logged through `error!`, and whether the call
panicked (an `unwrap` on a failure). -/
structure JobResult where
  artifacts : List (List String × List (List String))
  errors : List String
  panicked : Bool
  deriving Repr, DecidableEq

def errNoParent : String := "output path does not have a parent directory"
def errMkdir : String := "could not create output directory"
def errCreatePrimary : String := "could not create output file"
def errFallbackNotice : String := "resorting to fallback file name"
def errStripRoot : String := "could not compute path relative to source root"

/-- Primary CSV path for grid `name` (main.rs line 61):
`output_path.with_extension(name + ".csv")`. -/
def primaryCsvPath (out : List String) (name : String) : List String :=
  withExtPath out (name ++ ".csv")

/-- Fallback CSV path for the grid at zero-based index `i` (main.rs line 67):
`output_path.with_extension(i.to_string() + ".csv")`. -/
def fallbackCsvPath (out : List String) (i : Nat) : List String :=
  withExtPath out (toString i ++ ".csv")

/-- The body of the per-grid loop of `parse_vdb_file` (main.rs lines 54-92)
for the grid at index `i` named `name`: reopen the container (`unwrap`: `none`
models the panic), create the writer at the primary path, on failure log twice
and retry once at the fallback path, `unwrap` the fallback (panic when it also
fails), then write the header record and one record per entry of
`read_grid(name)` in yield order.  Returns the logged errors together with
`some` artifact, or `none` for a panic. -/
def processGrid (env : Env) (src out : List String) (i : Nat) (name : String) :
    List String × Option (List String × List (List String)) :=
  match env.readVdb src with
  | none => ([], none)
  | some gl =>
    let primary := primaryCsvPath out name
    if env.canCreate primary then
      match gl.lookup name with
      | none => ([], none)
      | some entries => ([], some (primary, headerRow :: entries.map rowOf))
    else
      let fb := fallbackCsvPath out i
      if env.canCreate fb then
        match gl.lookup name with
        | none => ([errCreatePrimary, errFallbackNotice], none)
        | some entries =>
          ([errCreatePrimary, errFallbackNotice],
            some (fb, headerRow :: entries.map rowOf))
      else ([errCreatePrimary, errFallbackNotice], none)

/-- The per-grid loop of `parse_vdb_file` over the enumerated grid names,
starting at index `i`.  A panic in one grid stops the loop: later grids are
not processed and the panic propagates. -/
def processGrids (env : Env) (src out : List String) :
    Nat → List String → JobResult
  | _, [] => ⟨[], [], false⟩
  | i, name :: rest =>
    match processGrid env src out i name with
    | (errs, none) => ⟨[], errs, true⟩
    | (errs, some art) =>
      let r := processGrids env src out (i + 1) rest
      ⟨art :: r.artifacts, errs ++ r.errors, r.panicked⟩

/-- `parse_vdb_file` (main.rs lines 29-93): ensure the output path's parent
directory exists (logged error and early return when the path has no parent or
`create_dir_all` fails), open the container and list its grids (`unwrap`:
panic when the stream cannot be opened or parsed), then run the per-grid
loop. -/
def parseVdbFile (env : Env) (src out : List String) : JobResult :=
  match parentPath out with
  | none => ⟨[], [errNoParent], false⟩
  | some d =>
    if env.mkdirOk d then
      match env.readVdb src with
      | none => ⟨[], [], true⟩
      | some gl => processGrids env src out 0 (gl.map Prod.fst)
    else ⟨[], [errMkdir], false⟩

/-- One directory entry as yielded by `walkdir`: its full path and whether it
is a directory.  The dispatch loop of `main` never consults `isDir`. -/
structure FsEntry where
  path : List String
  isDir : Bool
  deriving Repr, DecidableEq

/-- `entry.path().extension()` (main.rs line 117). -/
def entryExt (e : FsEntry) : Option String :=
  match e.path.getLast? with
  | none => none
  | some f => fileExt f

/-- The dispatch filter of `main` (lines 117-118): the entry's path extension
exists and equals `"vdb"` (exact, case-sensitive comparison). -/
def dispatchable (e : FsEntry) : Bool :=
  decide (entryExt e = some "vdb")

/-- Outcome of the whole dispatch loop: for every dispatched candidate, its
source path with the result of its `parse_vdb_file` call; the loop-level
logged errors; and whether the process panicked (nonzero exit status). -/
structure BatchResult where
  results : List (List String × JobResult)
  errors : List String
  panicked : Bool
  deriving Repr, DecidableEq

/-- The sequential (`multithreading = false`) dispatch loop of `main`
(lines 113-160 with the non-spawning branch).  For each entry whose extension
is `vdb`, `strip_prefix` computes the source-root-relative path; on its failure
the code logs and executes `return`, which returns from the closure passed to
`rayon::scope` — ending the whole loop, so no later entry is processed (the
process itself then exits normally).  Otherwise `parse_vdb_file` runs; a panic
inside it unwinds through `main`, so no later entry is processed and the
process exits with failure. -/
def runSeq (env : Env) (srcDir outDir : List String) :
    List FsEntry → BatchResult
  | [] => ⟨[], [], false⟩
  | e :: rest =>
    if dispatchable e then
      match stripRoot srcDir e.path with
      | none => ⟨[], [errStripRoot], false⟩
      | some loc =>
        let r := parseVdbFile env e.path (outDir ++ loc)
        if r.panicked then ⟨[(e.path, r)], r.errors, true⟩
        else
          let b := runSeq env srcDir outDir rest
          ⟨(e.path, r) :: b.results, r.errors ++ b.errors, b.panicked⟩
    else runSeq env srcDir outDir rest

/-- The multithreaded (`multithreading = true`) dispatch loop of `main`: every
matching entry is spawned as its own task inside `rayon::scope`.  A
`strip_prefix` failure `return`s only from that task, skipping just that
candidate; every task runs to completion, and a panic in any task is rethrown
when the scope joins, making the process exit with failure.  Result order
between tasks is not guaranteed by the code; the model lists them in entry
order. -/
def runMt (env : Env) (srcDir outDir : List String) :
    List FsEntry → BatchResult
  | [] => ⟨[], [], false⟩
  | e :: rest =>
    let b := runMt env srcDir outDir rest
    if dispatchable e then
      match stripRoot srcDir e.path with
      | none => ⟨b.results, errStripRoot :: b.errors, b.panicked⟩
      | some loc =>
        let r := parseVdbFile env e.path (outDir ++ loc)
        ⟨(e.path, r) :: b.results, r.errors ++ b.errors, r.panicked || b.panicked⟩
    else b

/-- A filesystem subtree, used to model what `walkdir` enumerates. -/
inductive FsTree where
  | file (name : String)
  | dir (name : String) (children : List FsTree)
  deriving Repr

/-- The name of the tree's top entry. -/
def FsTree.topName : FsTree → String
  | .file n => n
  | .dir n _ => n

/-- Whether the tree's top entry is a directory. -/
def FsTree.isDirTop : FsTree → Bool
  | .file _ => false
  | .dir _ _ => true

mutual
/-- `WalkDir` traversal of the tree rooted at path `base`: the entry for the
root itself (depth 0) followed by its subtree, descending only while the
remaining depth budget `rem` is positive (`rem = none` is the unlimited
default; `WalkDir::max_depth(1)` is `rem = some 1`). -/
def walkTree (base : List String) (rem : Option Nat) : FsTree → List FsEntry
  | .file _ => [⟨base, false⟩]
  | .dir _ cs =>
    ⟨base, true⟩ ::
      (match rem with
      | some 0 => []
      | some (n + 1) => walkList base (some n) cs
      | none => walkList base none cs)

/-- Walk each child in order, extending the base path with the child's name. -/
def walkList (base : List String) (rem : Option Nat) : List FsTree → List FsEntry
  | [] => []
  | t :: ts => walkTree (base ++ [t.topName]) rem t ++ walkList base rem ts
end

/-- `main` after argument parsing (lines 95-162): build the walker with
`max_depth(1)` unless `recursive`, then dispatch sequentially or across the
worker pool.  `tree` is the subtree rooted at `srcDir`. -/
def runMain (env : Env) (multithreading recursive : Bool)
    (srcDir outDir : List String) (tree : FsTree) : BatchResult :=
  let entries := walkTree srcDir (if recursive then none else some 1) tree
  if multithreading then runMt env srcDir outDir entries
  else runSeq env srcDir outDir entries

/-! ### Concrete fixtures used by the counterexample and witness theorems -/

/-- A world with one corrupt container (`src/bad.vdb`, cannot be parsed) and
one valid container (`src/good.vdb`, a single grid `g` with no entries); all
directory and file creation succeeds. -/
def envCorrupt : Env :=
  ⟨fun _ => true, fun _ => true,
    fun p => if p = ["src", "good.vdb"] then some [("g", [])] else none⟩

/-- A world where `src/s.vdb` holds grids `g0` and `g1`; both candidate output
files of `g0` cannot be created, while both of `g1` can. -/
def envDoubleFail : Env :=
  ⟨fun _ => true,
    fun p => decide (p = ["out", "s.g1.csv"]) || decide (p = ["out", "s.1.csv"]),
    fun p => if p = ["src", "s.vdb"] then some [("g0", []), ("g1", [])] else none⟩

/-- A world where every container parses to an empty grid list and all
filesystem operations succeed. -/
def envEmptyGrids : Env :=
  ⟨fun _ => true, fun _ => true, fun _ => some []⟩

/-- A world where every filesystem operation fails and no container parses. -/
def envAllFail : Env :=
  ⟨fun _ => false, fun _ => false, fun _ => none⟩

/-- A single decoded voxel entry used by witnesses. -/
def sampleEntry : VoxelEntry := ⟨1, -2, 3, 8, "0.5"⟩

/-- A world where `src/x.vdb` parses to one grid `g` holding `sampleEntry`,
and every filesystem operation succeeds. -/
def envSample : Env :=
  ⟨fun _ => true, fun _ => true,
    fun p => if p = ["src", "x.vdb"] then some [("g", [sampleEntry])] else none⟩

/-! ### Helper lemmas about the path model -/

theorem splitLastDot_eq (l : List Char) :
    ∀ s e, splitLastDot l = some (s, e) → l = s ++ '.' :: e := by
  induction l with
  | nil => intro s e h; simp [splitLastDot] at h
  | cons c cs ih =>
    intro s e h
    rw [splitLastDot] at h
    cases hcs : splitLastDot cs with
    | some p =>
      rw [hcs] at h
      obtain ⟨s', e'⟩ := p
      have hse : s = c :: s' ∧ e = e' := by simpa using h.symm
      obtain ⟨hs, he⟩ := hse
      subst hs he
      simpa using ih _ _ hcs
    | none =>
      rw [hcs] at h
      by_cases hc : c = '.'
      · rw [if_pos hc] at h
        have hse : s = [] ∧ e = cs := by simpa using h.symm
        obtain ⟨hs, he⟩ := hse
        subst hs he
        simp [hc]
      · simp [hc] at h

theorem rustSplitExt_eq (n : List Char) (e : List Char)
    (h : (rustSplitExt n).2 = some e) :
    n = (rustSplitExt n).1 ++ '.' :: e := by
  cases n with
  | nil => simp [rustSplitExt] at h
  | cons c cs =>
    rw [rustSplitExt] at h ⊢
    by_cases hc : c = '.'
    · rw [if_pos hc] at h ⊢
      cases hcs : splitLastDot cs with
      | some p =>
        obtain ⟨s', e'⟩ := p
        rw [hcs] at h
        dsimp only at h ⊢
        obtain rfl : e' = e := by simpa using h
        simp [hc, splitLastDot_eq cs _ _ hcs]
      | none => rw [hcs] at h; simp at h
    · rw [if_neg hc] at h ⊢
      cases hcs : splitLastDot (c :: cs) with
      | some p =>
        obtain ⟨s', e'⟩ := p
        rw [hcs] at h
        dsimp only at h ⊢
        obtain rfl : e' = e := by simpa using h
        exact splitLastDot_eq _ _ _ hcs
      | none => rw [hcs] at h; simp at h

/-- A file name with `Path::extension` equal to `e` is its stem, a dot, and
`e` — this is what lets `{relative_path_without_ext}` describe the stem. -/
theorem fileExt_stem_concat (f e : String) (h : fileExt f = some e) :
    f = fileStem f ++ "." ++ e := by
  rw [fileExt] at h
  cases hx : (rustSplitExt f.data).2 with
  | none => rw [hx] at h; simp at h
  | some ec =>
    rw [hx] at h
    have hme : (⟨ec⟩ : String) = e := by simpa using h
    have hd : f.data = (rustSplitExt f.data).1 ++ '.' :: ec :=
      rustSplitExt_eq f.data ec hx
    have he : e.data = ec := by rw [← hme]
    have hdot : ".".data = ['.'] := rfl
    apply String.ext
    simp only [String.data_append, hdot, he]
    rw [show (fileStem f).data = (rustSplitExt f.data).1 from rfl]
    conv_lhs => rw [hd]
    simp

/-- `Path::with_extension` with a nonempty new extension appends
`"." ++ x` to the file stem. -/
theorem withExtStr_eq (f x : String) (hx : x.data ≠ []) :
    withExtStr f x = fileStem f ++ "." ++ x := by
  rw [withExtStr, if_neg (by simpa using hx)]
  have hdot : ".".data = ['.'] := rfl
  apply String.ext
  simp only [String.data_append, hdot]
  simp [fileStem]

theorem withExtPath_concat (p : List String) (f x : String) :
    withExtPath (p ++ [f]) x = p ++ [withExtStr f x] := by
  simp [withExtPath]

theorem underRoot_append (p q : List String) : underRoot p (p ++ q) = true := by
  induction p with
  | nil => rfl
  | cons a as ih => simp [underRoot, ih]

theorem stripRoot_append (p q : List String) : stripRoot p (p ++ q) = some q := by
  simp [stripRoot, underRoot_append]

/-! ### Helper lemmas about the dispatch loops -/

theorem runSeq_cons_skip (env : Env) (sd od : List String) (e : FsEntry)
    (rest : List FsEntry) (h : dispatchable e = false) :
    runSeq env sd od (e :: rest) = runSeq env sd od rest := by
  conv_lhs => rw [runSeq]
  simp [h]

theorem runMt_cons_skip (env : Env) (sd od : List String) (e : FsEntry)
    (rest : List FsEntry) (h : dispatchable e = false) :
    runMt env sd od (e :: rest) = runMt env sd od rest := by
  conv_lhs => rw [runMt]
  simp [h]

theorem runSeq_single_hit_mapfst (env : Env) (sd od : List String)
    (e : FsEntry) (loc : List String)
    (h1 : dispatchable e = true) (h2 : stripRoot sd e.path = some loc) :
    (runSeq env sd od [e]).results.map Prod.fst = [e.path] := by
  cases hpan : (parseVdbFile env e.path (od ++ loc)).panicked <;>
    simp [runSeq, h1, h2, hpan]

theorem runMt_cons_hit_mapfst (env : Env) (sd od : List String) (e : FsEntry)
    (rest : List FsEntry) (loc : List String)
    (h1 : dispatchable e = true) (h2 : stripRoot sd e.path = some loc) :
    (runMt env sd od (e :: rest)).results.map Prod.fst
      = e.path :: (runMt env sd od rest).results.map Prod.fst := by
  conv_lhs => rw [runMt]
  simp [h1, h2]

theorem runSeq_hit_then_skips_mapfst (env : Env) (sd od : List String)
    (e : FsEntry) (rest : List FsEntry) (loc : List String)
    (h1 : dispatchable e = true) (h2 : stripRoot sd e.path = some loc)
    (hrest : (runSeq env sd od rest).results = []) :
    (runSeq env sd od (e :: rest)).results.map Prod.fst = [e.path] := by
  cases hpan : (parseVdbFile env e.path (od ++ loc)).panicked <;>
    simp [runSeq, h1, h2, hpan, hrest]

/-! ### Claim theorems -/

/-- C10: if the computed output path has no parent directory component,
`parse_vdb_file` logs an error and returns immediately, producing no output
artifact for any grid of that source file (and it does not panic). -/
theorem c10_no_parent_aborts_file (env : Env) (src out : List String)
    (h : parentPath out = none) :
    parseVdbFile env src out = ⟨[], [errNoParent], false⟩ := by
  rw [parseVdbFile, h]

theorem c10_no_parent_aborts_file_witness :
    parentPath [] = none ∧
      parseVdbFile envAllFail ["src", "a.vdb"] [] = ⟨[], [errNoParent], false⟩ :=
  ⟨rfl, c10_no_parent_aborts_file envAllFail ["src", "a.vdb"] [] rfl⟩

/-- C7: parent directories are created before any output file; when that
creation fails, the whole file's job ends with one logged error and zero
artifacts for every grid of the file, whatever the rest of the world
(`canCreate`, `readVdb`) would have allowed. -/
theorem c7_mkdir_failure_terminal_for_file (env : Env) (src out d : List String)
    (h1 : parentPath out = some d) (h2 : env.mkdirOk d = false) :
    parseVdbFile env src out = ⟨[], [errMkdir], false⟩ := by
  rw [parseVdbFile, h1]
  simp [h2]

theorem c7_mkdir_failure_terminal_for_file_witness :
    parentPath ["out", "x.vdb"] = some ["out"] ∧
      envAllFail.mkdirOk ["out"] = false ∧
      parseVdbFile envAllFail ["src", "x.vdb"] ["out", "x.vdb"]
        = ⟨[], [errMkdir], false⟩ :=
  ⟨rfl, rfl,
    c7_mkdir_failure_terminal_for_file envAllFail ["src", "x.vdb"]
      ["out", "x.vdb"] ["out"] rfl rfl⟩

/-- C2: a grid whose decoder iteration yields `entries` produces an artifact
whose records are exactly the header row followed by one data row per entry
in yield order — `entries.length + 1` records in all, and just the header
when the grid yields nothing. -/
theorem c2_artifact_is_header_then_rows (env : Env) (src out : List String)
    (i : Nat) (name : String) (gl : List (String × List VoxelEntry))
    (entries : List VoxelEntry)
    (h1 : env.readVdb src = some gl) (h2 : gl.lookup name = some entries)
    (h3 : env.canCreate (primaryCsvPath out name) = true ∨
      env.canCreate (fallbackCsvPath out i) = true) :
    ∃ p errs,
      processGrid env src out i name
          = (errs, some (p, headerRow :: entries.map rowOf)) ∧
        (headerRow :: entries.map rowOf).length = entries.length + 1 ∧
        (entries = [] → headerRow :: entries.map rowOf = [headerRow]) := by
  rw [processGrid, h1]
  by_cases hc : env.canCreate (primaryCsvPath out name) = true
  · refine ⟨primaryCsvPath out name, [], ?_, by simp, fun he => by simp [he]⟩
    simp [hc, h2]
  · have hf : env.canCreate (fallbackCsvPath out i) = true := by
      rcases h3 with h | h
      · exact absurd h hc
      · exact h
    have hc' : env.canCreate (primaryCsvPath out name) = false :=
      Bool.eq_false_iff.mpr hc
    refine ⟨fallbackCsvPath out i, [errCreatePrimary, errFallbackNotice], ?_,
      by simp, fun he => by simp [he]⟩
    simp [hc', hf, h2]

theorem c2_artifact_is_header_then_rows_witness :
    ∃ p errs,
      processGrid envSample ["src", "x.vdb"] ["out", "x.vdb"] 0 "g"
          = (errs, some (p, headerRow :: [sampleEntry].map rowOf)) ∧
        (headerRow :: [sampleEntry].map rowOf).length = [sampleEntry].length + 1 ∧
        ([sampleEntry] = ([] : List VoxelEntry) →
          headerRow :: [sampleEntry].map rowOf = [headerRow]) :=
  c2_artifact_is_header_then_rows envSample ["src", "x.vdb"] ["out", "x.vdb"]
    0 "g" [("g", [sampleEntry])] [sampleEntry] rfl (by rfl) (Or.inl rfl)

/-- C4: for a source file `{ds}/{fname}` (relative to the source root) whose
name carries the `vdb` extension, the primary output path is
`{output_root}/{ds}/{stem}.{grid_name}.csv` and the fallback path is
`{output_root}/{ds}/{stem}.{grid_index}.csv`, where `stem` is the relative
file name without its extension (`fname = stem ++ "." ++ "vdb"`). -/
theorem c4_primary_and_fallback_paths (outRoot ds : List String)
    (fname g : String) (i : Nat) (h : fileExt fname = some "vdb") :
    primaryCsvPath (outRoot ++ (ds ++ [fname])) g
        = outRoot ++ ds ++ [fileStem fname ++ "." ++ (g ++ ".csv")] ∧
      fallbackCsvPath (outRoot ++ (ds ++ [fname])) i
        = outRoot ++ ds ++ [fileStem fname ++ "." ++ (toString i ++ ".csv")] ∧
      fname = fileStem fname ++ "." ++ "vdb" := by
  have hassoc : outRoot ++ (ds ++ [fname]) = (outRoot ++ ds) ++ [fname] := by
    simp
  refine ⟨?_, ?_, fileExt_stem_concat fname "vdb" h⟩
  · rw [primaryCsvPath, hassoc, withExtPath_concat,
      withExtStr_eq fname (g ++ ".csv") (by simp [String.data_append])]
  · rw [fallbackCsvPath, hassoc, withExtPath_concat,
      withExtStr_eq fname (toString i ++ ".csv") (by simp [String.data_append])]

theorem c4_primary_and_fallback_paths_witness :
    primaryCsvPath (["out"] ++ (["a"] ++ ["x.vdb"])) "density"
        = ["out"] ++ ["a"] ++ [fileStem "x.vdb" ++ "." ++ ("density" ++ ".csv")] ∧
      fallbackCsvPath (["out"] ++ (["a"] ++ ["x.vdb"])) 7
        = ["out"] ++ ["a"] ++ [fileStem "x.vdb" ++ "." ++ (toString 7 ++ ".csv")] ∧
      "x.vdb" = fileStem "x.vdb" ++ "." ++ "vdb" :=
  c4_primary_and_fallback_paths ["out"] ["a"] "x.vdb" "density" 7 (by decide)

/-- C6: each data row is the projection of exactly one voxel entry, columns
`x, y, z, span, value` in that fixed order: the position components cast to
signed 32-bit integers and rendered as decimal text, the span rendered as the
decimal text of an integer (the cast decoder scale — never a rounded float),
and the value the 16-bit float's decoder-rendered decimal text.  The data
rows of the grid's artifact are exactly the projections of its entries in
yield order. -/
theorem c6_row_is_entry_projection (env : Env) (src out : List String)
    (i : Nat) (name : String) (gl : List (String × List VoxelEntry))
    (entries : List VoxelEntry)
    (h1 : env.readVdb src = some gl) (h2 : gl.lookup name = some entries)
    (h3 : env.canCreate (primaryCsvPath out name) = true) :
    (processGrid env src out i name).2
        = some (primaryCsvPath out name, headerRow :: entries.map rowOf) ∧
      ∀ e ∈ entries,
        rowOf e = [toString (i32sat e.x), toString (i32sat e.y),
            toString (i32sat e.z), toString (i32sat e.scale), e.value] ∧
          (rowOf e).length = 5 ∧
          ∃ k : Int, (rowOf e)[3]? = some (toString k) ∧ k = i32sat e.scale := by
  constructor
  · rw [processGrid, h1]
    simp [h3, h2]
  · intro e _
    exact ⟨rfl, rfl, ⟨i32sat e.scale, rfl, rfl⟩⟩

theorem c6_row_is_entry_projection_witness :
    (processGrid envSample ["src", "x.vdb"] ["out", "x.vdb"] 0 "g").2
        = some (primaryCsvPath ["out", "x.vdb"] "g",
            headerRow :: [sampleEntry].map rowOf) ∧
      ∀ e ∈ [sampleEntry],
        rowOf e = [toString (i32sat e.x), toString (i32sat e.y),
            toString (i32sat e.z), toString (i32sat e.scale), e.value] ∧
          (rowOf e).length = 5 ∧
          ∃ k : Int, (rowOf e)[3]? = some (toString k) ∧ k = i32sat e.scale :=
  c6_row_is_entry_projection envSample ["src", "x.vdb"] ["out", "x.vdb"] 0 "g"
    [("g", [sampleEntry])] [sampleEntry] rfl (by rfl) rfl

/-- C3 counterexample: in `envDoubleFail`, grid `g0` of `src/s.vdb` fails both
its primary and its fallback output creation.  The claim says this failure is
terminal for that one grid only and the job must proceed to the remaining
grids; in fact the `unwrap` on the fallback writer panics: the job ends with
zero artifacts and the sibling grid `g1` — whose own creation would have
succeeded, as the second conjunct shows — is never processed. -/
theorem c3_counterexample :
    parseVdbFile envDoubleFail ["src", "s.vdb"] ["out", "s.vdb"]
        = ⟨[], [errCreatePrimary, errFallbackNotice], true⟩ ∧
      processGrid envDoubleFail ["src", "s.vdb"] ["out", "s.vdb"] 1 "g1"
        = ([], some (["out", "s.g1.csv"], [headerRow])) := by
  constructor <;> rfl

/-- C3 amended: when creating the primary output file for a grid fails, the
sink retries exactly once against the fallback path built from the grid's
zero-based list index (and on fallback success the grid's artifact is written
there); but if the fallback creation also fails, the code panics: the job
records the two logged errors, produces no artifact, and does not proceed to
the remaining grids of the file. -/
theorem c3_fallback_retry_then_panic (env : Env) (src out : List String)
    (i : Nat) (name : String) (rest : List String)
    (gl : List (String × List VoxelEntry)) (entries : List VoxelEntry)
    (h1 : env.readVdb src = some gl)
    (hp : env.canCreate (primaryCsvPath out name) = false) :
    (gl.lookup name = some entries →
        env.canCreate (fallbackCsvPath out i) = true →
        processGrid env src out i name
          = ([errCreatePrimary, errFallbackNotice],
              some (fallbackCsvPath out i, headerRow :: entries.map rowOf))) ∧
      (env.canCreate (fallbackCsvPath out i) = false →
        processGrids env src out i (name :: rest)
          = ⟨[], [errCreatePrimary, errFallbackNotice], true⟩) := by
  constructor
  · intro h2 hf
    rw [processGrid, h1]
    simp [hp, hf, h2]
  · intro hf
    have hpg : processGrid env src out i name
        = ([errCreatePrimary, errFallbackNotice], none) := by
      rw [processGrid, h1]
      simp [hp, hf]
    simp [processGrids, hpg]

theorem c3_fallback_retry_then_panic_witness :
    (([("g0", ([] : List VoxelEntry)), ("g1", [])].lookup "g0" = some [] →
        envDoubleFail.canCreate (fallbackCsvPath ["out", "s.vdb"] 0) = true →
        processGrid envDoubleFail ["src", "s.vdb"] ["out", "s.vdb"] 0 "g0"
          = ([errCreatePrimary, errFallbackNotice],
              some (fallbackCsvPath ["out", "s.vdb"] 0,
                headerRow :: ([] : List VoxelEntry).map rowOf))) ∧
      (envDoubleFail.canCreate (fallbackCsvPath ["out", "s.vdb"] 0) = false →
        processGrids envDoubleFail ["src", "s.vdb"] ["out", "s.vdb"] 0
            ["g0", "g1"]
          = ⟨[], [errCreatePrimary, errFallbackNotice], true⟩)) :=
  c3_fallback_retry_then_panic envDoubleFail ["src", "s.vdb"] ["out", "s.vdb"]
    0 "g0" ["g1"] [("g0", []), ("g1", [])] [] rfl rfl

/-- C1 counterexample: a batch over one corrupt file (`src/bad.vdb`) and one
valid file (`src/good.vdb`), in that walk order, under sequential dispatch.
The claim says the valid file's artifacts are still produced, the corrupt file
yields only logged errors, and the process exits with success; in fact the
`unwrap` of `VdbReader::new` panics on the corrupt file, so the run ends
panicked (nonzero exit status) with zero artifacts, and the valid file —
which alone produces its artifact, as the second conjunct shows — is never
reached. -/
theorem c1_counterexample :
    runSeq envCorrupt ["src"] ["out"]
        [⟨["src", "bad.vdb"], false⟩, ⟨["src", "good.vdb"], false⟩]
      = ⟨[(["src", "bad.vdb"], ⟨[], [], true⟩)], [], true⟩ ∧
    runSeq envCorrupt ["src"] ["out"] [⟨["src", "good.vdb"], false⟩]
      = ⟨[(["src", "good.vdb"],
            ⟨[(["out", "good.g.csv"], [headerRow])], [], false⟩)], [], false⟩ := by
  constructor <;> rfl

/-- C1 amended: failures are contained per grid or per file only for
directory-creation, output-file-creation (first try) and relative-path errors;
a source file whose stream cannot be opened or parsed as a VDB container makes
the job panic, which aborts the batch: under sequential dispatch no later
candidate is processed and the run ends panicked (the process exits with
failure); under multithreaded dispatch the run also ends panicked. -/
theorem c1_corrupt_file_aborts_batch (env : Env) (srcDir outDir : List String)
    (e : FsEntry) (rest : List FsEntry) (loc d : List String)
    (h1 : dispatchable e = true) (h2 : stripRoot srcDir e.path = some loc)
    (h3 : parentPath (outDir ++ loc) = some d) (h4 : env.mkdirOk d = true)
    (h5 : env.readVdb e.path = none) :
    runSeq env srcDir outDir (e :: rest)
        = ⟨[(e.path, ⟨[], [], true⟩)], [], true⟩ ∧
      (runMt env srcDir outDir (e :: rest)).panicked = true := by
  have hp : parseVdbFile env e.path (outDir ++ loc) = ⟨[], [], true⟩ := by
    rw [parseVdbFile, h3]
    simp [h4, h5]
  constructor
  · conv_lhs => rw [runSeq]
    simp [h1, h2, hp]
  · conv_lhs => rw [runMt]
    simp [h1, h2, hp]

theorem c1_corrupt_file_aborts_batch_witness :
    runSeq envCorrupt ["src"] ["out"]
        (⟨["src", "bad.vdb"], false⟩ :: [⟨["src", "good.vdb"], false⟩])
        = ⟨[(["src", "bad.vdb"], ⟨[], [], true⟩)], [], true⟩ ∧
      (runMt envCorrupt ["src"] ["out"]
          (⟨["src", "bad.vdb"], false⟩ :: [⟨["src", "good.vdb"], false⟩])).panicked
        = true :=
  c1_corrupt_file_aborts_batch envCorrupt ["src"] ["out"]
    ⟨["src", "bad.vdb"], false⟩ [⟨["src", "good.vdb"], false⟩]
    ["bad.vdb"] ["out"] rfl rfl rfl rfl rfl

/-- C8 counterexample: two candidates, the first not under the source root,
under both dispatch modes, in a world where every file parses to an empty grid
list.  The claim says the failing candidate alone is skipped and the batch
continues in both modes; in fact sequential mode stops the whole walk (the
`return` leaves the `rayon::scope` closure): the second, valid candidate is
never dispatched, while multithreaded mode does dispatch it. -/
theorem c8_counterexample :
    runSeq envEmptyGrids ["src"] ["out"]
        [⟨["elsewhere", "b.vdb"], false⟩, ⟨["src", "g.vdb"], false⟩]
      = ⟨[], [errStripRoot], false⟩ ∧
    (runMt envEmptyGrids ["src"] ["out"]
        [⟨["elsewhere", "b.vdb"], false⟩, ⟨["src", "g.vdb"], false⟩]).results.map
        Prod.fst
      = [["src", "g.vdb"]] := by
  constructor <;> rfl

/-- C8 amended: a candidate whose path cannot be made relative to the source
root is logged; under multithreaded dispatch only that candidate is skipped
and the batch continues with the rest, but under sequential dispatch the
`return` ends the whole walk: no remaining candidate is dispatched (the
process still exits successfully). -/
theorem c8_relpath_failure_stops_seq_walk (env : Env)
    (srcDir outDir : List String) (e : FsEntry) (rest : List FsEntry)
    (h1 : dispatchable e = true) (h2 : stripRoot srcDir e.path = none) :
    runSeq env srcDir outDir (e :: rest) = ⟨[], [errStripRoot], false⟩ ∧
      runMt env srcDir outDir (e :: rest)
        = ⟨(runMt env srcDir outDir rest).results,
            errStripRoot :: (runMt env srcDir outDir rest).errors,
            (runMt env srcDir outDir rest).panicked⟩ := by
  constructor
  · conv_lhs => rw [runSeq]
    simp [h1, h2]
  · conv_lhs => rw [runMt]
    simp [h1, h2]

theorem c8_relpath_failure_stops_seq_walk_witness :
    runSeq envEmptyGrids ["src"] ["out"]
        (⟨["elsewhere", "b.vdb"], false⟩ :: [⟨["src", "g.vdb"], false⟩])
        = ⟨[], [errStripRoot], false⟩ ∧
      runMt envEmptyGrids ["src"] ["out"]
          (⟨["elsewhere", "b.vdb"], false⟩ :: [⟨["src", "g.vdb"], false⟩])
        = ⟨(runMt envEmptyGrids ["src"] ["out"]
              [⟨["src", "g.vdb"], false⟩]).results,
            errStripRoot :: (runMt envEmptyGrids ["src"] ["out"]
              [⟨["src", "g.vdb"], false⟩]).errors,
            (runMt envEmptyGrids ["src"] ["out"]
              [⟨["src", "g.vdb"], false⟩]).panicked⟩ :=
  c8_relpath_failure_stops_seq_walk envEmptyGrids ["src"] ["out"]
    ⟨["elsewhere", "b.vdb"], false⟩ [⟨["src", "g.vdb"], false⟩] rfl rfl

/-- C5 counterexample: `WalkDir` yields the source root itself at depth 0, so
with `recursive = false` the driver does not consider "only direct children":
a source root that is a directory named `root.vdb` with no children at all —
hence no direct child whatsoever — is itself dispatched to an export job. -/
theorem c5_counterexample :
    walkTree ["root.vdb"] (some 1) (FsTree.dir "root.vdb" [])
        = [⟨["root.vdb"], true⟩] ∧
      (runMain envAllFail false false ["root.vdb"] ["out"]
          (FsTree.dir "root.vdb" [])).results.map Prod.fst
        = [["root.vdb"]] := by
  constructor <;> rfl

/-- C5 amended: with `recursive = false` the driver considers the root entry
itself plus its direct children (depth ≤ 1); with `recursive = true` the full
subtree.  Exactly the considered entries whose extension is `vdb` are
dispatched: a matching file two levels deep is exported under recursive mode
(sequential or multithreaded) and skipped entirely under non-recursive mode,
a matching file one level deep is dispatched even under non-recursive mode
(while its two-level sibling still is not), and a root entry that itself
bears the extension is dispatched even non-recursively. -/
theorem c5_depth_and_extension_dispatch (env : Env) (outDir : List String)
    (r d f f1 r' : String) (mt : Bool)
    (hr : fileExt r ≠ some "vdb") (hd : fileExt d ≠ some "vdb")
    (hf : fileExt f = some "vdb") (hf1 : fileExt f1 = some "vdb")
    (hr' : fileExt r' = some "vdb") :
    (runMain env false true [r] outDir
          (FsTree.dir r [FsTree.dir d [FsTree.file f]])).results.map Prod.fst
        = [[r, d, f]] ∧
      (runMain env true true [r] outDir
          (FsTree.dir r [FsTree.dir d [FsTree.file f]])).results.map Prod.fst
        = [[r, d, f]] ∧
      runMain env mt false [r] outDir
          (FsTree.dir r [FsTree.dir d [FsTree.file f]])
        = ⟨[], [], false⟩ ∧
      (runMain env mt false [r] outDir
          (FsTree.dir r [FsTree.file f1, FsTree.dir d [FsTree.file f]])).results.map
          Prod.fst
        = [[r, f1]] ∧
      (runMain env mt false [r'] outDir (FsTree.dir r' [])).results.map Prod.fst
        = [[r']] := by
  have hw : walkTree [r] none (FsTree.dir r [FsTree.dir d [FsTree.file f]])
      = [⟨[r], true⟩, ⟨[r, d], true⟩, ⟨[r, d, f], false⟩] := by
    simp [walkTree, walkList, FsTree.topName]
  have hw1 : walkTree [r] (some 1) (FsTree.dir r [FsTree.dir d [FsTree.file f]])
      = [⟨[r], true⟩, ⟨[r, d], true⟩] := by
    simp [walkTree, walkList, FsTree.topName]
  have hw2 : walkTree [r'] (some 1) (FsTree.dir r' []) = [⟨[r'], true⟩] := by
    simp [walkTree, walkList]
  have hw3 : walkTree [r] (some 1)
        (FsTree.dir r [FsTree.file f1, FsTree.dir d [FsTree.file f]])
      = [⟨[r], true⟩, ⟨[r, f1], false⟩, ⟨[r, d], true⟩] := by
    simp [walkTree, walkList, FsTree.topName]
  have hdr : dispatchable ⟨[r], true⟩ = false := by
    simp [dispatchable, entryExt, hr]
  have hdd : dispatchable ⟨[r, d], true⟩ = false := by
    simp [dispatchable, entryExt, hd]
  have hdf : dispatchable ⟨[r, d, f], false⟩ = true := by
    simp [dispatchable, entryExt, hf]
  have hdr' : dispatchable ⟨[r'], true⟩ = true := by
    simp [dispatchable, entryExt, hr']
  have hdf1 : dispatchable ⟨[r, f1], false⟩ = true := by
    simp [dispatchable, entryExt, hf1]
  have hs3 : stripRoot [r] [r, d, f] = some [d, f] := by
    simpa using stripRoot_append [r] [d, f]
  have hs1 : stripRoot [r'] [r'] = some [] := by
    simpa using stripRoot_append [r'] []
  have hsf1 : stripRoot [r] [r, f1] = some [f1] := by
    simpa using stripRoot_append [r] [f1]
  refine ⟨?_, ?_, ?_, ?_, ?_⟩
  · show (runSeq env [r] outDir
        (walkTree [r] none (FsTree.dir r [FsTree.dir d [FsTree.file f]]))).results.map
        Prod.fst = [[r, d, f]]
    rw [hw, runSeq_cons_skip _ _ _ _ _ hdr, runSeq_cons_skip _ _ _ _ _ hdd]
    exact runSeq_single_hit_mapfst env [r] outDir ⟨[r, d, f], false⟩ [d, f] hdf hs3
  · show (runMt env [r] outDir
        (walkTree [r] none (FsTree.dir r [FsTree.dir d [FsTree.file f]]))).results.map
        Prod.fst = [[r, d, f]]
    rw [hw, runMt_cons_skip _ _ _ _ _ hdr, runMt_cons_skip _ _ _ _ _ hdd,
      runMt_cons_hit_mapfst _ _ _ _ _ [d, f] hdf hs3]
    rfl
  · cases mt with
    | false =>
      show runSeq env [r] outDir
          (walkTree [r] (some 1) (FsTree.dir r [FsTree.dir d [FsTree.file f]]))
        = ⟨[], [], false⟩
      rw [hw1, runSeq_cons_skip _ _ _ _ _ hdr, runSeq_cons_skip _ _ _ _ _ hdd]
      rfl
    | true =>
      show runMt env [r] outDir
          (walkTree [r] (some 1) (FsTree.dir r [FsTree.dir d [FsTree.file f]]))
        = ⟨[], [], false⟩
      rw [hw1, runMt_cons_skip _ _ _ _ _ hdr, runMt_cons_skip _ _ _ _ _ hdd]
      rfl
  · cases mt with
    | false =>
      show (runSeq env [r] outDir
          (walkTree [r] (some 1)
            (FsTree.dir r [FsTree.file f1, FsTree.dir d [FsTree.file f]]))).results.map
          Prod.fst
        = [[r, f1]]
      rw [hw3, runSeq_cons_skip _ _ _ _ _ hdr]
      exact runSeq_hit_then_skips_mapfst env [r] outDir ⟨[r, f1], false⟩
        [⟨[r, d], true⟩] [f1] hdf1 hsf1
        (by rw [runSeq_cons_skip _ _ _ _ _ hdd]; rfl)
    | true =>
      show (runMt env [r] outDir
          (walkTree [r] (some 1)
            (FsTree.dir r [FsTree.file f1, FsTree.dir d [FsTree.file f]]))).results.map
          Prod.fst
        = [[r, f1]]
      rw [hw3, runMt_cons_skip _ _ _ _ _ hdr,
        runMt_cons_hit_mapfst _ _ _ _ _ [f1] hdf1 hsf1,
        runMt_cons_skip _ _ _ _ _ hdd]
      rfl
  · cases mt with
    | false =>
      show (runSeq env [r'] outDir
          (walkTree [r'] (some 1) (FsTree.dir r' []))).results.map Prod.fst
        = [[r']]
      rw [hw2]
      exact runSeq_single_hit_mapfst env [r'] outDir ⟨[r'], true⟩ [] hdr' hs1
    | true =>
      show (runMt env [r'] outDir
          (walkTree [r'] (some 1) (FsTree.dir r' []))).results.map Prod.fst
        = [[r']]
      rw [hw2, runMt_cons_hit_mapfst _ _ _ _ _ [] hdr' hs1]
      rfl

theorem c5_depth_and_extension_dispatch_witness :
    (runMain envEmptyGrids false true ["a"] ["out"]
          (FsTree.dir "a" [FsTree.dir "b" [FsTree.file "y.vdb"]])).results.map
          Prod.fst
        = [["a", "b", "y.vdb"]] ∧
      (runMain envEmptyGrids true true ["a"] ["out"]
          (FsTree.dir "a" [FsTree.dir "b" [FsTree.file "y.vdb"]])).results.map
          Prod.fst
        = [["a", "b", "y.vdb"]] ∧
      runMain envEmptyGrids false false ["a"] ["out"]
          (FsTree.dir "a" [FsTree.dir "b" [FsTree.file "y.vdb"]])
        = ⟨[], [], false⟩ ∧
      (runMain envEmptyGrids false false ["a"] ["out"]
          (FsTree.dir "a"
            [FsTree.file "x.vdb", FsTree.dir "b" [FsTree.file "y.vdb"]])).results.map
          Prod.fst
        = [["a", "x.vdb"]] ∧
      (runMain envEmptyGrids false false ["root.vdb"] ["out"]
          (FsTree.dir "root.vdb" [])).results.map Prod.fst
        = [["root.vdb"]] :=
  c5_depth_and_extension_dispatch envEmptyGrids ["out"] "a" "b" "y.vdb"
    "x.vdb" "root.vdb" false (by decide) (by decide) (by decide) (by decide)
    (by decide)

/-- C9: candidate filtering inspects only the path extension, never the entry
kind: the filter gives the same verdict whatever `isDir` is; an entry whose
extension is `"VDB"` fails the exact case-sensitive comparison with `"vdb"`
and is skipped with no diagnostic (no logged error, no result); a directory
whose name ends in `.vdb` passes the filter and is dispatched to an export job
as if it were a source file. -/
theorem c9_filter_is_extension_only (env : Env) (sd od p loc loc2 : List String)
    (name nm2 : String) (b b' : Bool)
    (h1 : fileExt name = some "vdb") (h2 : fileExt nm2 = some "VDB") :
    dispatchable ⟨p, b⟩ = dispatchable ⟨p, b'⟩ ∧
      dispatchable ⟨loc2 ++ [nm2], b⟩ = false ∧
      runSeq env sd od [⟨loc2 ++ [nm2], b⟩] = ⟨[], [], false⟩ ∧
      dispatchable ⟨sd ++ (loc ++ [name]), true⟩ = true ∧
      (runSeq env sd od [⟨sd ++ (loc ++ [name]), true⟩]).results.map Prod.fst
        = [sd ++ (loc ++ [name])] := by
  have hvdb : dispatchable ⟨loc2 ++ [nm2], b⟩ = false := by
    have hext : entryExt ⟨loc2 ++ [nm2], b⟩ = some "VDB" := by
      simp [entryExt, h2]
    simp only [dispatchable, hext]
    decide
  have hdir : dispatchable ⟨sd ++ (loc ++ [name]), true⟩ = true := by
    have hext : entryExt ⟨sd ++ (loc ++ [name]), true⟩ = some "vdb" := by
      rw [entryExt]
      rw [show sd ++ (loc ++ [name]) = (sd ++ loc) ++ [name] by simp]
      simp [h1]
    simp [dispatchable, hext]
  refine ⟨rfl, hvdb, ?_, hdir, ?_⟩
  · rw [runSeq_cons_skip _ _ _ _ _ hvdb]
    rfl
  · exact runSeq_single_hit_mapfst env sd od ⟨sd ++ (loc ++ [name]), true⟩
      (loc ++ [name]) hdir (stripRoot_append sd (loc ++ [name]))

theorem c9_filter_is_extension_only_witness :
    dispatchable ⟨["a"], false⟩ = dispatchable ⟨["a"], true⟩ ∧
      dispatchable ⟨["src"] ++ ["x.VDB"], false⟩ = false ∧
      runSeq envEmptyGrids ["src"] ["out"] [⟨["src"] ++ ["x.VDB"], false⟩]
        = ⟨[], [], false⟩ ∧
      dispatchable ⟨["src"] ++ (["sub"] ++ ["d.vdb"]), true⟩ = true ∧
      (runSeq envEmptyGrids ["src"] ["out"]
          [⟨["src"] ++ (["sub"] ++ ["d.vdb"]), true⟩]).results.map Prod.fst
        = [["src"] ++ (["sub"] ++ ["d.vdb"])] :=
  c9_filter_is_extension_only envEmptyGrids ["src"] ["out"] ["a"] ["sub"]
    ["src"] "d.vdb" "x.VDB" false true (by decide) (by decide)

end VdbToText
